import Mathlib

/-!
Verification development for the StarScope star-chart program
(src/star_scope.py). The first-party logic — the date-string parser, the
request pipeline of `generate_star_chart`, the magnitude filter, the
marker-size formula, the altitude-ring radius mapping, and the hover
handler — is embedded shallowly below; the external collaborators
(Nominatim geocoding, tzwhere lookup, and the skyfield observe/project
computation) are opaque parameters gathered in an `Env`.
-/

namespace StarScope

/-! ## Settings (star_scope.py lines 17-20) -/

def chart_size : ℕ := 8

def max_star_size : ℝ := 80

def limiting_magnitude : ℚ := 6

/-! ## Data model -/

/-- One row of the hipparcos dataframe loaded at line 25: the HIP catalog
identifier (the dataframe index), right ascension, declination, magnitude,
and an optional proper-name column (`row.get` at line 115 tolerates its
absence, so it is modeled as optional). -/
structure CatalogRow where
  hip : ℕ
  ra : ℚ
  dec : ℚ
  magnitude : ℚ
  proper : Option String
deriving DecidableEq, Repr

/-- The module-level `stars` dataframe: the base catalog columns loaded once
(line 25) together with the 'x'/'y' columns, which exist only after some call
has executed the assignment at line 62. -/
structure CatalogState where
  rows : List CatalogRow
  xcol : Option (List ℚ)
  ycol : Option (List ℚ)
deriving DecidableEq, Repr

/-- A local calendar timestamp as produced by `datetime.strptime` at
line 40 with format '%Y-%m-%d %H:%M' (seconds and finer are always zero). -/
structure DateTime where
  year : ℕ
  month : ℕ
  day : ℕ
  hour : ℕ
  minute : ℕ
deriving DecidableEq, Repr

/-- One request as assembled by the button callback at lines 171-172. -/
structure Request where
  location_name : String
  when_str : String
  draw_grid : Bool
deriving DecidableEq, Repr

/-- A star as plotted by the scatter call at line 74, built from the
filtered dataframe `df` of line 64: catalog data plus projected chart-plane
coordinates. -/
structure PlottedStar where
  hip : ℕ
  proper : Option String
  magnitude : ℚ
  x : ℚ
  y : ℚ
deriving DecidableEq, Repr

/-- The rendered figure contents that depend on the request: the plotted
stars and whether the Alt-Az grid overlay of lines 81-95 was drawn. -/
structure Chart where
  stars : List PlottedStar
  grid : Bool
deriving DecidableEq, Repr

/-! ## Embedding of datetime.strptime(s, '%Y-%m-%d %H:%M') (line 40)

CPython's strptime compiles the format to a regex: %Y is exactly four
digits; %m, %d, %H, %M are one or two digits constrained by ordered
alternations (two-digit forms preferred, e.g. %m is 1[0-2]|0[1-9]|[1-9]);
a space matches one or more whitespace characters; the whole input must be
consumed; finally the datetime constructor validates the calendar date.
Every failure raises ValueError, collapsed to `none` here. -/

def digitVal (c : Char) : ℕ := c.toNat - 48

/-- Exactly four digits, as %Y requires. -/
def parse4digits : List Char → Option (ℕ × List Char)
  | a :: b :: c :: d :: rest =>
    if a.isDigit ∧ b.isDigit ∧ c.isDigit ∧ d.isDigit then
      some (1000 * digitVal a + 100 * digitVal b + 10 * digitVal c + digitVal d, rest)
    else none
  | _ => none

/-- A one-or-two-digit numeric field: the two-digit form is taken when both
characters are digits and the two-digit value lies in [lo2, hi]; otherwise a
single digit at least lo1. This reproduces the ordered regex alternations
CPython uses for %m (lo2 = lo1 = 1, hi = 12), %d (1, 1, 31), %H (0, 0, 23)
and %M (0, 0, 59); the following literal is never a digit, so the regex
never needs to backtrack into a shorter match. -/
def parseField (lo2 hi lo1 : ℕ) : List Char → Option (ℕ × List Char)
  | a :: b :: rest =>
    if a.isDigit then
      if b.isDigit ∧ lo2 ≤ 10 * digitVal a + digitVal b ∧ 10 * digitVal a + digitVal b ≤ hi then
        some (10 * digitVal a + digitVal b, rest)
      else if lo1 ≤ digitVal a then some (digitVal a, b :: rest)
      else none
    else none
  | [a] => if a.isDigit ∧ lo1 ≤ digitVal a then some (digitVal a, []) else none
  | [] => none

/-- A literal character of the format. -/
def parseChar (c : Char) : List Char → Option (List Char)
  | a :: rest => if a = c then some rest else none
  | [] => none

/-- A space in the format matches one or more whitespace characters. -/
def parseSpaces : List Char → Option (List Char)
  | a :: rest => if a.isWhitespace then some (rest.dropWhile Char.isWhitespace) else none
  | [] => none

def isLeap (y : ℕ) : Bool := y % 4 = 0 ∧ (y % 100 ≠ 0 ∨ y % 400 = 0)

def daysInMonth (y m : ℕ) : ℕ :=
  if m = 2 then (if isLeap y then 29 else 28)
  else if m = 4 ∨ m = 6 ∨ m = 9 ∨ m = 11 then 30
  else 31

/-- The full parse of line 40. The final guard is the datetime constructor's
validation: year at least 1 (MINYEAR) and the day within the month. -/
def strptimeYmdHM (s : String) : Option DateTime := do
  let (y, r1) ← parse4digits s.data
  let r2 ← parseChar '-' r1
  let (mo, r3) ← parseField 1 12 1 r2
  let r4 ← parseChar '-' r3
  let (d, r5) ← parseField 1 31 1 r4
  let r6 ← parseSpaces r5
  let (h, r7) ← parseField 0 23 0 r6
  let r8 ← parseChar ':' r7
  let (mi, r9) ← parseField 0 59 0 r8
  if r9 = [] ∧ 1 ≤ y ∧ d ≤ daysInMonth y mo then
    some ⟨y, mo, d, h, mi⟩
  else none

/-! ## The request pipeline of generate_star_chart (lines 30-141) -/

/-- The external collaborators, opaque to the first-party code: the
Nominatim geocoder (line 34), the tzwhere timezone lookup (line 41), and
the skyfield computation of lines 49-62 that, for the geocoded coordinate,
the resolved timezone name and the parsed local instant, projects one
catalog row to chart-plane coordinates. -/
structure Env where
  geocode : String → Option (ℚ × ℚ)
  tzNameAt : ℚ × ℚ → Option String
  projAt : ℚ × ℚ → String → DateTime → CatalogRow → ℚ × ℚ

/-- Message of the ValueError raised at line 36. -/
def locationNotFoundMsg (name : String) : String :=
  "Location '" ++ name ++ "' not found."

/-- Message of the ValueError raised at line 43. -/
def timezoneUnresolvedMsg : String :=
  "Cannot determine timezone for this location."

/-- Message of the ValueError raised by strptime at line 40 (its several
variants — no match, unconverted data, invalid date — are collapsed into
one representative string). -/
def timeParseErrorMsg (s : String) : String :=
  "time data '" ++ s ++ "' does not match format '%Y-%m-%d %H:%M'"

/-- Line 63: bright = stars['magnitude'] <= limiting_magnitude. -/
def bright (row : CatalogRow) : Bool := row.magnitude ≤ limiting_magnitude

/-- Line 64: df = stars[bright], applied to the rows paired with their
freshly written x/y coordinates. -/
def dfOf (rowsXY : List (CatalogRow × (ℚ × ℚ))) : List (CatalogRow × (ℚ × ℚ))  :=
  rowsXY.filter (fun rx => bright rx.1)

def toPlotted (rx : CatalogRow × (ℚ × ℚ)) : PlottedStar :=
  ⟨rx.1.hip, rx.1.proper, rx.1.magnitude, rx.2.1, rx.2.2⟩

/-- Lines 31-99 of generate_star_chart up to figure construction: the
fallible steps (geocode, strptime, timezone lookup) in program order, then
the projection of every catalog row and the in-place write of the x/y
columns of the shared `stars` table (line 62), the magnitude filter
(lines 63-64), and the chart contents. Returns the updated catalog state
together with the value the top-level except-handler of line 140 sees. -/
def handleRequest (env : Env) (st : CatalogState) (req : Request) :
    CatalogState × Except String Chart :=
  match env.geocode req.location_name with
  | none => (st, .error (locationNotFoundMsg req.location_name))
  | some ll =>
    match strptimeYmdHM req.when_str with
    | none => (st, .error (timeParseErrorMsg req.when_str))
    | some dt =>
      match env.tzNameAt ll with
      | none => (st, .error timezoneUnresolvedMsg)
      | some tzn =>
        let xys := st.rows.map (env.projAt ll tzn dt)
        let st' : CatalogState :=
          ⟨st.rows, some (xys.map Prod.fst), some (xys.map Prod.snd)⟩
        let df := dfOf (st.rows.zip xys)
        (st', .ok ⟨df.map toPlotted, req.draw_grid⟩)

/-- Lines 132-138 against line 140: on success the previous canvas_frame
children are destroyed and the new chart is embedded; on any caught
exception the frame is untouched. -/
def updateDisplay (disp : Option Chart) (res : Except String Chart) : Option Chart :=
  match res with
  | .error _ => disp
  | .ok c => some c

/-- Line 141: messagebox.showerror displays str(e) exactly when an
exception was caught. -/
def shownDialog (res : Except String Chart) : Option String :=
  match res with
  | .error m => some m
  | .ok _ => none

def chartStarsOf (res : Except String Chart) : Option (List PlottedStar) :=
  match res with
  | .error _ => none
  | .ok c => some c.stars

/-! ## Marker sizes and grid geometry -/

/-- Line 66: sizes = max_star_size * 10 ** (mags / -2.5), for one
magnitude. -/
noncomputable def starSize (m : ℝ) : ℝ := max_star_size * (10 : ℝ) ^ (m / -2.5)

/-- The size column of line 66, computed from the filtered dataframe's
magnitudes. -/
noncomputable def chartSizes (c : Chart) : List ℝ :=
  c.stars.map (fun s => starSize (s.magnitude : ℝ))

/-- np.radians. -/
noncomputable def radians (d : ℝ) : ℝ := d * Real.pi / 180

/-- Line 83: r = np.tan(np.radians(90 - alt) / 2), the altitude-to-radius
mapping of the grid rings. -/
noncomputable def ringRadius (alt : ℝ) : ℝ := Real.tan (radians (90 - alt) / 2)

/-! ## Hover handling (lines 101-130) -/

/-- The annotation state of lines 102-107: visibility, anchor point, and
the text set at line 116, modeled structurally as the displayed name and
magnitude rather than as the formatted string. -/
structure Annot where
  visible : Bool
  xy : ℚ × ℚ
  name : String
  mag : ℚ
deriving DecidableEq, Repr

/-- Line 115: the proper name when present and non-empty, else "HIP id". -/
def starName (s : PlottedStar) : String :=
  match s.proper with
  | some p => if p = "" then "HIP " ++ toString s.hip else p
  | none => "HIP " ++ toString s.hip

/-- scatter.contains(event) at line 120: the indices, in increasing order,
of the rendered markers containing the pointer position; `hit` stands for
the plotting library's per-marker containment test. -/
def containsFrom (hit : ℚ × ℚ → PlottedStar → Bool) (p : ℚ × ℚ) :
    ℕ → List PlottedStar → List ℕ
  | _, [] => []
  | n, s :: rest =>
    if hit p s then n :: containsFrom hit p (n + 1) rest
    else containsFrom hit p (n + 1) rest

def containsIndices (hit : ℚ × ℚ → PlottedStar → Bool) (p : ℚ × ℚ)
    (ss : List PlottedStar) : List ℕ :=
  containsFrom hit p 0 ss

/-- Lines 109-128: the motion_notify_event handler. `inAxes` is the test
event.inaxes == ax of line 119; `p` is the pointer position in data
coordinates; `ss` is the already-rendered marker set (the plotted stars of
the chart, in dataframe order). update_annot takes ind["ind"][0], the first
containing index. -/
def hover (hit : ℚ × ℚ → PlottedStar → Bool) (ss : List PlottedStar)
    (inAxes : Bool) (p : ℚ × ℚ) (a : Annot) : Annot :=
  if inAxes then
    match containsIndices hit p ss with
    | i :: _ =>
      match ss[i]? with
      | some s => ⟨true, (s.x, s.y), starName s, s.magnitude⟩
      | none => a
    | [] => if a.visible then ⟨false, a.xy, a.name, a.mag⟩ else a
  else a

/-- Squared euclidean distance in the chart plane; used only to state the
"nearest star" reading of the hover tooltip. -/
def sqDist (p q : ℚ × ℚ) : ℚ := (p.1 - q.1) * (p.1 - q.1) + (p.2 - q.2) * (p.2 - q.2)

/-! ## Properties of the containment list -/

/-- The head of the containment list is the least index whose marker
contains the pointer: it denotes a rendered star that the test accepts,
and every rendered star at a smaller index is rejected. -/
theorem containsFrom_head_spec (hit : ℚ × ℚ → PlottedStar → Bool) (p : ℚ × ℚ) :
    ∀ (ss : List PlottedStar) (n i : ℕ) (rest : List ℕ),
      containsFrom hit p n ss = i :: rest →
      n ≤ i ∧ ∃ s, ss[i - n]? = some s ∧ hit p s = true ∧
        ∀ j t, n ≤ j → j < i → ss[j - n]? = some t → hit p t = false := by
  intro ss
  induction ss with
  | nil =>
    intro n i rest h
    simp [containsFrom] at h
  | cons s ssr ih =>
    intro n i rest h
    by_cases hh : hit p s = true
    · simp only [containsFrom, hh, if_true] at h
      injection h with h1 h2
      subst h1
      refine ⟨le_refl n, s, by simp, hh, fun j t hj1 hj2 _ => absurd hj2 (by omega)⟩
    · simp only [containsFrom, hh, if_false] at h
      obtain ⟨hni, s', hget, hhit, hmin⟩ := ih (n + 1) i rest h
      refine ⟨by omega, s', ?_, hhit, ?_⟩
      · rw [show i - n = (i - (n + 1)) + 1 by omega, List.getElem?_cons_succ]
        exact hget
      · intro j t hj1 hj2 hgt
        rcases Nat.eq_or_lt_of_le hj1 with he | hlt
        · rw [← he, Nat.sub_self, List.getElem?_cons_zero] at hgt
          injection hgt with hst
          rw [← hst]
          simpa using hh
        · rw [show j - n = (j - (n + 1)) + 1 by omega, List.getElem?_cons_succ] at hgt
          exact hmin j t (by omega) hj2 hgt

/-! ## Concrete instances used by witnesses and counterexamples -/

def row0 : CatalogRow := ⟨1, 3, 4, 5, none⟩

def st0 : CatalogState := ⟨[row0], none, none⟩

/-- An environment in which every external lookup succeeds and the
projection returns the row's own (ra, dec). -/
def envOK : Env := ⟨fun _ => some (1, 2), fun _ => some "UTC", fun _ _ _ r => (r.ra, r.dec)⟩

/-- An environment in which the geocoder finds nothing. -/
def envNoLoc : Env := ⟨fun _ => none, fun _ => none, fun _ _ _ _ => (0, 0)⟩

def reqOK : Request := ⟨"X", "2023-01-01 00:00", false⟩

/-- Follows the spec's literal wording of the fixed pattern
'YYYY-MM-DD HH:MM': four digits, '-', two digits, '-', two digits, one
space, two digits, ':', two digits. Stated only to compare the spec's
phrasing with the strptime format the code actually uses. -/
def matchesFixedPattern (s : String) : Bool :=
  match s.data with
  | [a, b, c, d, s1, e, f, s2, g, h, s3, i, j, s4, k, l] =>
    a.isDigit && b.isDigit && c.isDigit && d.isDigit && s1 == '-' &&
    e.isDigit && f.isDigit && s2 == '-' && g.isDigit && h.isDigit &&
    s3 == ' ' && i.isDigit && j.isDigit && s4 == ':' && k.isDigit && l.isDigit
  | _ => false

/-! ## Claims -/

/-- C1: the magnitude filter is boundary-inclusive at the fixed threshold 6:
an entry is retained by the filter of lines 63-64 iff its magnitude is at
most 6, and every entry with magnitude strictly greater than 6 is
excluded. -/
theorem C1_magnitude_filter_boundary
    (rowsXY : List (CatalogRow × (ℚ × ℚ))) (rx : CatalogRow × (ℚ × ℚ)) :
    (rx ∈ dfOf rowsXY ↔ rx ∈ rowsXY ∧ rx.1.magnitude ≤ 6) ∧
    (6 < rx.1.magnitude → rx ∉ dfOf rowsXY) := by
  have hmem : rx ∈ dfOf rowsXY ↔ rx ∈ rowsXY ∧ rx.1.magnitude ≤ 6 := by
    simp [dfOf, bright, limiting_magnitude, List.mem_filter]
  refine ⟨hmem, fun hgt hin => ?_⟩
  exact absurd ((hmem.1 hin).2) (by linarith)

theorem C1_witness :
    (6 : ℚ) < (7 : ℚ) ∧
      (⟨⟨1, 0, 0, 7, none⟩, (0, 0)⟩ : CatalogRow × (ℚ × ℚ)) ∉
        dfOf [⟨⟨1, 0, 0, 7, none⟩, (0, 0)⟩] :=
  ⟨by norm_num,
    (C1_magnitude_filter_boundary [⟨⟨1, 0, 0, 7, none⟩, (0, 0)⟩]
      ⟨⟨1, 0, 0, 7, none⟩, (0, 0)⟩).2 (by norm_num)⟩

/-- C2: every retained star's marker size is max_size * 10 ^ (magnitude /
-2.5) with max_size = 80, and no clamping is applied: a retainable
(magnitude ≤ 6) star can have size exceeding max_size. -/
theorem C2_marker_size_no_clamp :
    (∀ c : Chart, chartSizes c =
      c.stars.map (fun s => (80 : ℝ) * (10 : ℝ) ^ ((s.magnitude : ℝ) / -2.5))) ∧
    max_star_size = 80 ∧
    ∃ m : ℚ, m ≤ limiting_magnitude ∧ max_star_size < starSize (m : ℝ) := by
  refine ⟨fun c => rfl, rfl, ⟨-1, by norm_num [limiting_magnitude], ?_⟩⟩
  have h1 : (1 : ℝ) < (10 : ℝ) ^ (0.4 : ℝ) :=
    (Real.one_lt_rpow_iff_of_pos (by norm_num)).2 (Or.inl ⟨by norm_num, by norm_num⟩)
  show max_star_size < starSize ((-1 : ℚ) : ℝ)
  unfold starSize max_star_size
  rw [show ((-1 : ℚ) : ℝ) / -2.5 = (0.4 : ℝ) by norm_num]
  nlinarith

/-- C7: the altitude-to-radius mapping r = tan((90° − alt)/2) of the grid
rings is 0 at the zenith (alt = 90), tends to 1 toward the horizon
(alt → 0), and is strictly decreasing in altitude on (0, 90]. -/
theorem C7_ring_radius_shape :
    ringRadius 90 = 0 ∧
    Filter.Tendsto ringRadius (nhds 0) (nhds 1) ∧
    ∀ a b : ℝ, 0 < a → a < b → b ≤ 90 → ringRadius b < ringRadius a := by
  have hzen : ringRadius 90 = 0 := by
    have h0 : radians (90 - (90 : ℝ)) / 2 = 0 := by unfold radians; ring
    unfold ringRadius
    rw [h0, Real.tan_zero]
  have hval : ringRadius 0 = 1 := by
    have h4 : radians (90 - (0 : ℝ)) / 2 = Real.pi / 4 := by unfold radians; ring
    unfold ringRadius
    rw [h4, Real.tan_pi_div_four]
  have hcont : ContinuousAt ringRadius 0 := by
    have hinner : ContinuousAt (fun alt : ℝ => radians (90 - alt) / 2) 0 := by
      unfold radians; fun_prop
    have harg : radians (90 - (0 : ℝ)) / 2 = Real.pi / 4 := by unfold radians; ring
    have houter : ContinuousAt Real.tan (radians (90 - (0 : ℝ)) / 2) := by
      rw [harg, Real.continuousAt_tan, Real.cos_pi_div_four]
      have h2 : (0 : ℝ) < Real.sqrt 2 := Real.sqrt_pos.2 (by norm_num)
      positivity
    exact ContinuousAt.comp (g := Real.tan)
      (f := fun alt : ℝ => radians (90 - alt) / 2) houter hinner
  refine ⟨hzen, ?_, ?_⟩
  · have := hcont.tendsto
    rwa [hval] at this
  · intro a b ha hab hb
    have hπ := Real.pi_pos
    unfold ringRadius radians
    apply Real.tan_lt_tan_of_nonneg_of_lt_pi_div_two
    · apply div_nonneg _ (by norm_num)
      apply div_nonneg _ (by norm_num)
      exact mul_nonneg (by linarith) hπ.le
    · nlinarith [mul_pos (show (0 : ℝ) < 90 + a by linarith) hπ]
    · nlinarith [mul_pos (sub_pos.2 hab) hπ]

theorem C7_witness :
    (0 : ℝ) < 30 ∧ (30 : ℝ) < 60 ∧ (60 : ℝ) ≤ 90 ∧ ringRadius 60 < ringRadius 30 :=
  ⟨by norm_num, by norm_num, by norm_num,
    C7_ring_radius_shape.2.2 30 60 (by norm_num) (by norm_num) (by norm_num)⟩

/-- C8: marker size is strictly decreasing in magnitude under the fixed
formula of line 66; in particular the size at magnitude 0 exceeds the size
at magnitude 6. -/
theorem C8_size_strictly_decreasing :
    (∀ m1 m2 : ℝ, m1 < m2 → starSize m2 < starSize m1) ∧ starSize 6 < starSize 0 := by
  have hmain : ∀ m1 m2 : ℝ, m1 < m2 → starSize m2 < starSize m1 := by
    intro m1 m2 h
    unfold starSize max_star_size
    have hexp : m2 / -2.5 < m1 / -2.5 := by
      have e1 : m2 / -2.5 = m2 * (-0.4) := by ring
      have e2 : m1 / -2.5 = m1 * (-0.4) := by ring
      rw [e1, e2]
      nlinarith
    have := (Real.rpow_lt_rpow_left_iff (show (1 : ℝ) < 10 by norm_num)).2 hexp
    nlinarith [Real.rpow_pos_of_pos (show (0 : ℝ) < 10 by norm_num) (m2 / -2.5)]
  exact ⟨hmain, hmain 0 6 (by norm_num)⟩

theorem C8_witness : (0 : ℝ) < 6 ∧ starSize 6 < starSize 0 :=
  ⟨by norm_num, C8_size_strictly_decreasing.1 0 6 (by norm_num)⟩

/-- C3 as stated is false: a successful chart generation writes the x/y
coordinate columns into the shared `stars` table (line 62), and they are
still there after the call returns — the once-loaded catalog table is not
read-only after initial load, and the coordinate column is not transient. -/
theorem C3_counterexample :
    (handleRequest envOK st0 reqOK).1 ≠ st0 ∧
    st0.xcol = none ∧
    (handleRequest envOK st0 reqOK).1.xcol = some [3] ∧
    (handleRequest envOK st0 reqOK).1.ycol = some [4] := by decide

/-- C3 amended: a chart-generation call never changes the base catalog
rows, its only effect on the shared table is to write (or overwrite) the
x/y coordinate columns, and both its result and the updated table contents
are independent of whatever x/y columns a previous request left behind. -/
theorem C3_catalog_mutation_limited (env : Env) (st : CatalogState) (req : Request) :
    (handleRequest env st req).1.rows = st.rows ∧
    ((handleRequest env st req).1 = st ∨
      ∃ xs ys : List ℚ, (handleRequest env st req).1 = ⟨st.rows, some xs, some ys⟩) ∧
    ∀ x1 y1 x2 y2 : Option (List ℚ),
      (handleRequest env ⟨st.rows, x1, y1⟩ req).2 =
        (handleRequest env ⟨st.rows, x2, y2⟩ req).2 ∧
      ∀ c : Chart, (handleRequest env ⟨st.rows, x1, y1⟩ req).2 = .ok c →
        (handleRequest env ⟨st.rows, x1, y1⟩ req).1 =
          (handleRequest env ⟨st.rows, x2, y2⟩ req).1 := by
  unfold handleRequest
  cases hg : env.geocode req.location_name with
  | none => simp [hg]
  | some ll =>
    cases hs : strptimeYmdHM req.when_str with
    | none => simp [hg, hs]
    | some dt =>
      cases ht : env.tzNameAt ll with
      | none => simp [hg, hs, ht]
      | some tzn => simp [hg, hs, ht]

/-- C4: whenever the request pipeline fails, the top-level handler shows
the stringified error, the displayed chart (or blank area) is left in
place unchanged, the shared catalog state is untouched, and the error is
one of the flat taxonomy: location-not-found, time-parse-failure, or
timezone-unresolved. -/
theorem C4_error_atomicity (env : Env) (st : CatalogState) (req : Request)
    (disp : Option Chart) (m : String)
    (herr : (handleRequest env st req).2 = .error m) :
    shownDialog (handleRequest env st req).2 = some m ∧
    updateDisplay disp (handleRequest env st req).2 = disp ∧
    (handleRequest env st req).1 = st ∧
    (m = locationNotFoundMsg req.location_name ∨
      m = timeParseErrorMsg req.when_str ∨ m = timezoneUnresolvedMsg) := by
  have hpair : (handleRequest env st req).1 = st ∧
      (m = locationNotFoundMsg req.location_name ∨
        m = timeParseErrorMsg req.when_str ∨ m = timezoneUnresolvedMsg) := by
    unfold handleRequest at herr ⊢
    cases hg : env.geocode req.location_name with
    | none =>
      simp only [hg, Except.error.injEq] at herr
      simp [hg, herr]
    | some ll =>
      cases hs : strptimeYmdHM req.when_str with
      | none =>
        simp only [hg, hs, Except.error.injEq] at herr
        simp [hg, hs, herr]
      | some dt =>
        cases ht : env.tzNameAt ll with
        | none =>
          simp only [hg, hs, ht, Except.error.injEq] at herr
          simp [hg, hs, ht, herr]
        | some tzn =>
          simp [hg, hs, ht] at herr
  exact ⟨by rw [herr]; rfl, by rw [herr]; rfl, hpair.1, hpair.2⟩

theorem C4_witness :
    (handleRequest envNoLoc st0 reqOK).2 = Except.error (locationNotFoundMsg "X") ∧
    shownDialog (handleRequest envNoLoc st0 reqOK).2 = some (locationNotFoundMsg "X") ∧
    updateDisplay none (handleRequest envNoLoc st0 reqOK).2 = none :=
  ⟨rfl,
    (C4_error_atomicity envNoLoc st0 reqOK none (locationNotFoundMsg "X") rfl).1,
    (C4_error_atomicity envNoLoc st0 reqOK none (locationNotFoundMsg "X") rfl).2.1⟩

/-- C6 as stated is false: the date string "2023-1-1 0:0" does not match
the fixed pattern 'YYYY-MM-DD HH:MM', yet strptime with format
'%Y-%m-%d %H:%M' accepts it (one-digit month, day, hour and minute), so no
time-parse error is surfaced and the displayed chart is replaced. -/
theorem C6_counterexample :
    matchesFixedPattern "2023-1-1 0:0" = false ∧
    strptimeYmdHM "2023-1-1 0:0" = some ⟨2023, 1, 1, 0, 0⟩ ∧
    shownDialog (handleRequest envOK st0 ⟨"X", "2023-1-1 0:0", false⟩).2 = none ∧
    updateDisplay none (handleRequest envOK st0 ⟨"X", "2023-1-1 0:0", false⟩).2 =
      some ⟨[⟨1, none, 5, 3, 4⟩], false⟩ := by decide

/-- C6 amended: for every date string the code's parser — strptime with
format '%Y-%m-%d %H:%M', which also accepts unpadded one-digit fields —
rejects, a request whose location does geocode fails with the time-parse
error surfaced to the user, and the displayed chart is unchanged. -/
theorem C6_time_parse_error (env : Env) (st : CatalogState) (req : Request)
    (disp : Option Chart) (ll : ℚ × ℚ)
    (hloc : env.geocode req.location_name = some ll)
    (hbad : strptimeYmdHM req.when_str = none) :
    (handleRequest env st req).2 = .error (timeParseErrorMsg req.when_str) ∧
    shownDialog (handleRequest env st req).2 = some (timeParseErrorMsg req.when_str) ∧
    updateDisplay disp (handleRequest env st req).2 = disp := by
  have h2 : (handleRequest env st req).2 = .error (timeParseErrorMsg req.when_str) := by
    unfold handleRequest
    simp [hloc, hbad]
  exact ⟨h2, by rw [h2]; rfl, by rw [h2]; rfl⟩

theorem C6_witness :
    envOK.geocode "X" = some (1, 2) ∧
    strptimeYmdHM "2023/01/01" = none ∧
    shownDialog (handleRequest envOK st0 ⟨"X", "2023/01/01", false⟩).2 =
      some (timeParseErrorMsg "2023/01/01") ∧
    updateDisplay none (handleRequest envOK st0 ⟨"X", "2023/01/01", false⟩).2 = none :=
  ⟨by decide, by decide,
    (C6_time_parse_error envOK st0 ⟨"X", "2023/01/01", false⟩ none (1, 2)
      (by decide) (by decide)).2.1,
    (C6_time_parse_error envOK st0 ⟨"X", "2023/01/01", false⟩ none (1, 2)
      (by decide) (by decide)).2.2⟩

/-- C9: geocoding is validated before date parsing: when the geocoder
cannot resolve the location, the handler fails with the location-not-found
error and the outcome is identical for every date string, malformed or
not — the date string is never consulted. -/
theorem C9_geocode_before_parse (env : Env) (st : CatalogState) (req : Request)
    (hloc : env.geocode req.location_name = none) :
    handleRequest env st req = (st, .error (locationNotFoundMsg req.location_name)) ∧
    ∀ d2 : String,
      handleRequest env st ⟨req.location_name, d2, req.draw_grid⟩ =
        handleRequest env st req := by
  have hmain : ∀ r : Request, r.location_name = req.location_name →
      handleRequest env st r = (st, .error (locationNotFoundMsg req.location_name)) := by
    intro r hr
    unfold handleRequest
    rw [hr, hloc]
  exact ⟨hmain req rfl, fun d2 => by rw [hmain ⟨req.location_name, d2, req.draw_grid⟩ rfl,
    hmain req rfl]⟩

theorem C9_witness :
    envNoLoc.geocode "Nowhere" = none ∧
    strptimeYmdHM "2023/01/01" = none ∧
    handleRequest envNoLoc st0 ⟨"Nowhere", "2023/01/01", false⟩ =
      (st0, .error (locationNotFoundMsg "Nowhere")) :=
  ⟨by decide, by decide,
    (C9_geocode_before_parse envNoLoc st0 ⟨"Nowhere", "2023/01/01", false⟩ (by decide)).1⟩

/-- C10: the draw_grid flag does not influence star selection or scaling:
two runs on the same environment, catalog state, location and time that
differ only in the flag produce the same catalog-state update, the same
plotted stars with the same projected coordinates, and the same marker
sizes. -/
theorem C10_grid_noninterference (env : Env) (st : CatalogState)
    (loc dstr : String) (b1 b2 : Bool) :
    (handleRequest env st ⟨loc, dstr, b1⟩).1 = (handleRequest env st ⟨loc, dstr, b2⟩).1 ∧
    chartStarsOf (handleRequest env st ⟨loc, dstr, b1⟩).2 =
      chartStarsOf (handleRequest env st ⟨loc, dstr, b2⟩).2 ∧
    Option.map chartSizes ((handleRequest env st ⟨loc, dstr, b1⟩).2.toOption) =
      Option.map chartSizes ((handleRequest env st ⟨loc, dstr, b2⟩).2.toOption) := by
  unfold handleRequest
  cases hg : env.geocode loc with
  | none => simp [hg]
  | some ll =>
    cases hs : strptimeYmdHM dstr with
    | none => simp [hg, hs]
    | some dt =>
      cases ht : env.tzNameAt ll with
      | none => simp [hg, hs, ht]
      | some tzn => simp [hg, hs, ht, chartStarsOf, chartSizes, Except.toOption]

/-- The marker set of the C5 counterexample: two rendered stars, HIP 1 at
the origin and HIP 2 at (1, 0). -/
def ssC5 : List PlottedStar := [⟨1, none, 2, 0, 0⟩, ⟨2, none, 3, 1, 0⟩]

/-- A containment test under which every marker contains the pointer
(overlapping markers). -/
def hitAll : ℚ × ℚ → PlottedStar → Bool := fun _ _ => true

/-- The initial, hidden annotation of lines 102-107. -/
def a0 : Annot := ⟨false, (0, 0), "", 0⟩

/-- C5 as stated is false: with the pointer at (1, 0) and both markers
containing it, the tooltip shown is that of HIP 1 at the origin — the
first containing index, ind["ind"][0] — although the rendered, containing
star HIP 2 at (1, 0) is strictly nearer to the pointer. The displayed star
is not the nearest one. -/
theorem C5_counterexample :
    (hover hitAll ssC5 true (1, 0) a0).visible = true ∧
    hover hitAll ssC5 true (1, 0) a0 = ⟨true, (0, 0), "HIP 1", 2⟩ ∧
    (⟨2, none, 3, 1, 0⟩ : PlottedStar) ∈ ssC5 ∧
    hitAll (1, 0) ⟨2, none, 3, 1, 0⟩ = true ∧
    sqDist (1, 0) (1, 0) < sqDist (1, 0) (0, 0) := by
  refine ⟨by decide, by decide, by decide, by decide, ?_⟩
  norm_num [sqDist]

/-- C5 amended: on a pointer-move event outside the chart axes the
annotation is untouched; over the chart the tooltip is recomputed against
the already-rendered marker set, hidden when no marker contains the
pointer, and otherwise shows the name (proper name or catalog identifier)
and magnitude of the star at the first (lowest) containing index — which
need not be the nearest containing star. -/
theorem C5_hover_first_containing :
    (∀ hit ss p a, hover hit ss false p a = a) ∧
    (∀ hit ss p a, containsIndices hit p ss = [] →
      (hover hit ss true p a).visible = false) ∧
    ∀ hit ss p a i rest, containsIndices hit p ss = i :: rest →
      ∃ s, ss[i]? = some s ∧ hit p s = true ∧
        hover hit ss true p a = ⟨true, (s.x, s.y), starName s, s.magnitude⟩ ∧
        ∀ j t, j < i → ss[j]? = some t → hit p t = false := by
  refine ⟨fun hit ss p a => rfl, fun hit ss p a h => ?_, fun hit ss p a i rest h => ?_⟩
  · simp only [hover, if_true, h]
    cases hv : a.visible <;> simp [hv]
  · obtain ⟨-, s, hget, hhit, hmin⟩ := containsFrom_head_spec hit p ss 0 i rest h
    rw [Nat.sub_zero] at hget
    refine ⟨s, hget, hhit, ?_, fun j t hj hgt => ?_⟩
    · simp [hover, h, hget]
    · exact hmin j t (Nat.zero_le j) hj (by simpa using hgt)

theorem C5_witness :
    containsIndices hitAll (1, 0) ssC5 = 0 :: [1] ∧
    ∃ s, ssC5[0]? = some s ∧ hitAll (1, 0) s = true ∧
      hover hitAll ssC5 true (1, 0) a0 = ⟨true, (s.x, s.y), starName s, s.magnitude⟩ ∧
      ∀ j t, j < 0 → ssC5[j]? = some t → hitAll (1, 0) t = false :=
  ⟨by decide,
    C5_hover_first_containing.2.2 hitAll ssC5 (1, 0) a0 0 [1] (by decide)⟩

end StarScope
